import Mathlib

/-!
Verification of the SCM Globe JSON comparison tool (`src/main.py`).

The development shallowly embeds the comparison core of `main.py`:
the path predicates (`is_ignored_path`, the index-extracting regex
searches), the name-resolution index built by `_prepare_mappings`, the
shared-facility guard, the change classifier `describe_change`, the
add/remove annotator `describe_add_remove`, and the per-file report
assembly loop of `compare_multiple_files`.

Modelling conventions:
- JSON values are the inductive `JVal`, mirroring the Python types that
  `json.load` produces (str, int, float, bool, None, list, dict).
  Python floats are modelled as rationals; `ratStr` is a display-level
  stand-in for Python's float `repr` (no theorem depends on its exact
  digits).
- Diff paths are the literal strings produced by the external diff
  primitive (e.g. `root['facilities'][0]['attrs']['name']`); the regex
  tests of the source are implemented as character-list scanners with
  the same semantics on such strings.  Field names are assumed not to
  contain quote/bracket characters, as JSON keys of this schema are
  plain identifiers.
- Python `dict`s are association lists where the most recent insertion
  is listed first, so `List.lookup` (first match) gives the
  last-write-wins semantics of dict assignment.
- A Python exception is modelled by `Option`/`none` at the function
  that raises (`_prepare_mappings` can raise `KeyError` on a base
  vehicle without `attrs`).
-/

/-- JSON values as Python objects (post `json.load`). -/
inductive JVal where
  | str (s : String)
  | int (n : Int)
  | float (q : ℚ)
  | bool (b : Bool)
  | null
  | arr (elems : List JVal)
  | dict (entries : List (String × JVal))

/-- Display-level rendering of a rational standing in for Python float `repr`.
No theorem depends on the exact digits produced here. -/
def ratStr (q : ℚ) : String :=
  if q.den = 1 then Int.repr q.num ++ ".0" else Int.repr q.num ++ "/" ++ Nat.repr q.den

mutual
/-- Python `str(v)` for the values interpolated into report lines.
For containers this follows Python's `repr`-based element rendering. -/
def pyStr : JVal → String
  | .str s => s
  | .int n => Int.repr n
  | .float q => ratStr q
  | .bool b => if b then "True" else "False"
  | .null => "None"
  | .arr l => "[" ++ String.intercalate ", " (pyReprList l) ++ "]"
  | .dict l => "\x7b" ++ String.intercalate ", " (pyReprDict l) ++ "\x7d"

/-- Python `repr(v)`, used for elements inside container renderings. -/
def pyRepr : JVal → String
  | .str s => "'" ++ s ++ "'"
  | .int n => Int.repr n
  | .float q => ratStr q
  | .bool b => if b then "True" else "False"
  | .null => "None"
  | .arr l => "[" ++ String.intercalate ", " (pyReprList l) ++ "]"
  | .dict l => "\x7b" ++ String.intercalate ", " (pyReprDict l) ++ "\x7d"

def pyReprList : List JVal → List String
  | [] => []
  | v :: vs => pyRepr v :: pyReprList vs

def pyReprDict : List (String × JVal) → List String
  | [] => []
  | (k, v) :: vs => ("'" ++ k ++ "': " ++ pyRepr v) :: pyReprDict vs
end

mutual
/-- Structural equality of JSON values, modelling Python `==` for the
schema's values (names and ids are strings or numbers; Python's
cross-type `int == float` equality is outside the modelled granularity). -/
def jvalBeq : JVal → JVal → Bool
  | .str a, .str b => a == b
  | .int a, .int b => a == b
  | .float a, .float b => a == b
  | .bool a, .bool b => a == b
  | .null, .null => true
  | .arr a, .arr b => jvalBeqList a b
  | .dict a, .dict b => jvalBeqDict a b
  | _, _ => false

def jvalBeqList : List JVal → List JVal → Bool
  | [], [] => true
  | a :: as, b :: bs => jvalBeq a b && jvalBeqList as bs
  | _, _ => false

def jvalBeqDict : List (String × JVal) → List (String × JVal) → Bool
  | [], [] => true
  | (k, a) :: as, (k', b) :: bs => k == k' && jvalBeq a b && jvalBeqDict as bs
  | _, _ => false
end

/-- Equality on optional values: `None == None` is true in Python, and a
missing facility name is represented by `None` in the guard's name sets. -/
def obeq : Option JVal → Option JVal → Bool
  | none, none => true
  | some a, some b => jvalBeq a b
  | _, _ => false

/-- Python truthiness of a value (`if v:`). -/
def jTruthy : JVal → Bool
  | .str s => !s.isEmpty
  | .int n => n != 0
  | .float q => q != 0
  | .bool b => b
  | .null => false
  | .arr l => !l.isEmpty
  | .dict l => !l.isEmpty

/-- Truthiness of `d.get(k)`-style results: a missing key is `None`, hence falsy. -/
def jTruthyO : Option JVal → Bool
  | none => false
  | some v => jTruthy v

/-- `v.get(k)` on a dict; `none` both for a missing key and (unmodelled in any
settled claim) for a non-dict receiver, where Python would raise. -/
def jget : JVal → String → Option JVal
  | .dict l, k => List.lookup k l
  | _, _ => none

/-- `v.get(k, d)` with a default. -/
def jgetD (v : JVal) (k : String) (d : JVal) : JVal :=
  (jget v k).getD d

/-- `isinstance(v, dict)`. -/
def jIsDict : JVal → Bool
  | .dict _ => true
  | _ => false

/-- Python `float(v)`: succeeds on ints, floats and bools; raises (modelled
`none`) on `None`, lists and dicts.  Numeric strings are outside the modelled
granularity and treated as unparsable. -/
def pyFloat : JVal → Option ℚ
  | .int n => some (n : ℚ)
  | .float q => some q
  | .bool b => some (if b then 1 else 0)
  | _ => none

/- Character-list scanners implementing the regex/string tests of `main.py`. -/

/-- Digits of a decimal numeral to a `Nat`. -/
def toNatDigits (l : List Char) : Nat :=
  l.foldl (fun n c => 10 * n + (c.toNat - 48)) 0

/-- Substring containment (Python `sub in s`) on character lists. -/
def hasInfix (pat : List Char) : List Char → Bool
  | [] => pat.isEmpty
  | c :: t => pat.isPrefixOf (c :: t) || hasInfix pat t

/-- Python `sub in path` on strings. -/
def containsS (p sub : String) : Bool :=
  hasInfix sub.data p.data

/-- Python `path.endswith(suf)`. -/
def endsWithS (p suf : String) : Bool :=
  List.isSuffixOf suf.data p.data

/-- Python `path.startswith(pre)`. -/
def startsWithS (p pre : String) : Bool :=
  List.isPrefixOf pre.data p.data

/-- After the opening `['` of a bracketed quoted segment, return the field
name: the characters up to the first `]`, provided that `]` is immediately
preceded by `'` (this is exactly where the regex piece `[^]]*'\]` can end
a match).  `none` when the segment is not well-terminated. -/
def segScan : List Char → Option (List Char)
  | [] => none
  | c :: t =>
    if c = ']' then none
    else if t.head? = some ']' then (if c = '\'' then some [] else none)
    else (segScan t).map (fun m => c :: m)

/-- Scanner for `re.search(r"\['[^]]*id[^]]*'\]", path, re.IGNORECASE)`:
does any bracketed quoted field name anywhere in the list contain `id`
case-insensitively? -/
def ignoredAux : List Char → Bool
  | [] => false
  | c :: t =>
    (if c = '[' ∧ t.head? = some '\'' then
      match segScan t.tail with
      | some m => hasInfix ['i', 'd'] (m.map Char.toLower)
      | none => false
     else false) || ignoredAux t

/-- `is_ignored_path` of `main.py`. -/
def is_ignored_path (p : String) : Bool :=
  ignoredAux p.data

/-- Parse one-or-more digits followed by `]`; part of the index-extracting
regex searches. -/
def digitsThenBracket (l : List Char) : Option Nat :=
  let ds := l.takeWhile Char.isDigit
  if ds.isEmpty then none
  else
    match l.drop ds.length with
    | ']' :: _ => some (toNatDigits ds)
    | _ => none

/-- Try to match `['<key>'][<digits>]` at the head of `l`. -/
def matchKeyAt (pat : List Char) (l : List Char) : Option Nat :=
  if pat.isPrefixOf l then digitsThenBracket (l.drop pat.length)
  else none

def searchIdxAux (pat : List Char) : List Char → Option Nat
  | [] => none
  | c :: t =>
    match matchKeyAt pat (c :: t) with
    | some n => some n
    | none => searchIdxAux pat t

/-- `re.search(r"\['<key>'\]\[(\d+)\]", path)`: leftmost bracketed index for
the given key, e.g. `searchIdxS "facilities" path`. -/
def searchIdxS (key : String) (p : String) : Option Nat :=
  searchIdxAux ("['" ++ key ++ "'][").data p.data

/-- Strip a literal prefix, for the anchored vehicle-item regex. -/
def stripP (pat : String) (l : List Char) : Option (List Char) :=
  if pat.data.isPrefixOf l then some (l.drop pat.data.length) else none

/-- Drop one-or-more leading digits. -/
def afterDigits (l : List Char) : Option (List Char) :=
  let ds := l.takeWhile Char.isDigit
  if ds.isEmpty then none else some (l.drop ds.length)

/-- `re.match(r"root\['facilities'\]\[\d+\]\['vehicles'\]\[\d+\]$", path)`. -/
def isVehicleItemPath (p : String) : Bool :=
  (do
    let r1 ← stripP "root['facilities'][" p.data
    let r2 ← afterDigits r1
    let r3 ← stripP "]['vehicles'][" r2
    let r4 ← afterDigits r3
    let r5 ← stripP "]" r4
    if r5 = [] then some () else none).isSome

/-- The leading decimal numeral of a rendered report line (its sequence
number). -/
def leadingNum (s : String) : Nat :=
  toNatDigits (s.data.takeWhile Char.isDigit)

/- Geo rounding and the name-resolution index. -/

/-- Python's `round` to the nearest integer: round-half-to-even
(banker's rounding), on the exact value. -/
def roundHalfEven (q : ℚ) : ℤ :=
  let f := ⌊q⌋
  let r := q - f
  if r < 1/2 then f
  else if r > 1/2 then f + 1
  else if Even f then f else f + 1

/-- `round(x, 4)`: round to four decimal places. -/
def round4 (q : ℚ) : ℚ :=
  (roundHalfEven (q * 10000) : ℚ) / 10000

/-- `rounded_geo(geo)` of `main.py`: `(round(float(geo[0]), 4),
round(float(geo[1]), 4))` with every failure (short list, non-list,
unparsable coordinate) caught and turned into `None`. -/
def rounded_geo (geo : JVal) : Option (ℚ × ℚ) :=
  match geo with
  | .arr (a :: b :: _) =>
    match pyFloat a, pyFloat b with
    | some x, some y => some (round4 x, round4 y)
    | _, _ => none
  | _ => none

/-- The name-resolution tables built by `_prepare_mappings` (the module
globals `FACILITY_NAMES_BY_ID`, `FACILITY_NAMES_BY_INDEX`,
`VEHICLE_NAMES_BY_PATH`, `GEO_TO_FACILITY`, `PRODUCT_NAMES_BY_ID`).
Table values hold the display strings interpolated into report lines. -/
structure Index where
  facilityNamesById : List (String × String)
  facilityNamesByIndex : List String
  vehicleNamesByPath : List ((Nat × Nat) × String)
  geoToFacility : List ((ℚ × ℚ) × String)
  productNamesById : List (String × String)

/-- `get_facility_name_by_index`. -/
def get_facility_name_by_index (idx : Index) (i : Nat) : String :=
  (idx.facilityNamesByIndex.get? i).getD ("Facility #" ++ Nat.repr (i + 1))

/-- `get_facility_name_by_id` (the id is already its `str()` key). -/
def get_facility_name_by_id (idx : Index) (fid : String) : String :=
  (List.lookup fid idx.facilityNamesById).getD ("Facility ID " ++ fid)

/-- `get_facility_name_by_geo`.  A `None` rounding key can never be a table
key (insertion only happens after a successful float conversion), so the
`none` case goes straight to the placeholder. -/
def get_facility_name_by_geo (idx : Index) (geo : JVal) : String :=
  match rounded_geo geo with
  | some k => (List.lookup k idx.geoToFacility).getD ("(Unknown Facility @ " ++ pyStr geo ++ ")")
  | none => "(Unknown Facility @ " ++ pyStr geo ++ ")"

/-- `get_vehicle_name_by_fac_index`. -/
def get_vehicle_name_by_fac_index (idx : Index) (fi vi : Nat) : String :=
  (List.lookup (fi, vi) idx.vehicleNamesByPath).getD
    ("Vehicle (" ++ Nat.repr fi ++ "," ++ Nat.repr vi ++ ")")

/- The document model (§3 of the data schema, at the granularity the
comparison core inspects).  Every leaf is `Option JVal`: `none` is a
missing key. -/

structure ProdAttrs where
  id : Option JVal
  name : Option JVal

structure Product where
  attrs : Option ProdAttrs

structure VehAttrs where
  name : Option JVal

structure Vehicle where
  attrs : Option VehAttrs

structure FacAttrs where
  id : Option JVal
  name : Option JVal
  lat : Option JVal
  lon : Option JVal

/-- A facility item.  `topId` is a top-level `id` key on the facility
object itself — distinct from `attrs.id`, where the data model places the
facility id. -/
structure Facility where
  topId : Option JVal
  attrs : Option FacAttrs
  vehicles : List Vehicle

structure Doc where
  facilities : List Facility
  products : List Product

/-- `f.get("attrs", {}).get("name")`: the raw name value, `None` when
either key is missing. -/
def facNameOpt (f : Facility) : Option JVal :=
  f.attrs.bind FacAttrs.name

/-- `f.get("attrs", {}).get("name", "(Unnamed)")` rendered for table
storage. -/
def facNameD (f : Facility) : String :=
  pyStr ((facNameOpt f).getD (JVal.str "(Unnamed)"))

/-- The product-table loop of `_prepare_mappings`: iterate
`base.products + test.products`, inserting `str(pid) ↦ name` when both
`pid` and `name` are truthy.  Later insertions are listed first so that
`List.lookup` gives dict overwrite semantics. -/
def prodTableAux : List Product → List (String × String)
  | [] => []
  | p :: ps =>
    let rest := prodTableAux ps
    let pid := p.attrs.bind ProdAttrs.id
    let nm := p.attrs.bind ProdAttrs.name
    if jTruthyO pid && jTruthyO nm then
      match pid, nm with
      | some i, some n => rest ++ [(pyStr i, pyStr n)]
      | _, _ => rest
    else rest

/-- The facility loop of `_prepare_mappings`: build `FACILITY_NAMES_BY_ID`
(only when the facility has both a top-level `id` key and an `attrs` key)
and `GEO_TO_FACILITY` (only when both coordinates parse as floats; the
insertion key is `rounded_geo([lat, lon])`, which always succeeds on a
pair of floats).  Later facilities are listed first (dict overwrite). -/
def facTablesAux : List Facility → List (String × String) × List ((ℚ × ℚ) × String)
  | [] => ([], [])
  | f :: fs =>
    let rest := facTablesAux fs
    let nm := facNameD f
    let ids :=
      match f.topId, f.attrs with
      | some i, some _ => rest.1 ++ [(pyStr i, nm)]
      | _, _ => rest.1
    let geos :=
      match f.attrs with
      | some a =>
        match (a.lat.bind pyFloat), (a.lon.bind pyFloat) with
        | some la, some lo =>
          match rounded_geo (JVal.arr [JVal.float la, JVal.float lo]) with
          | some k => rest.2 ++ [(k, nm)]
          | none => rest.2
        | _, _ => rest.2
      | none => rest.2
    (ids, geos)

/-- One facility's row of the vehicle-name table.  `v["attrs"]` is a bare
subscript in the source: a vehicle without `attrs` raises `KeyError`,
modelled as `none`. -/
def vehRowAux (fIdx : Nat) : Nat → List Vehicle → Option (List ((Nat × Nat) × String))
  | _, [] => some []
  | vIdx, v :: vs =>
    match v.attrs, vehRowAux fIdx (vIdx + 1) vs with
    | some a, some rest =>
      some (((fIdx, vIdx),
        pyStr (a.name.getD (JVal.str ("Vehicle #" ++ Nat.repr (vIdx + 1))))) :: rest)
    | _, _ => none

/-- The nested vehicle loop over the base document's facilities. -/
def vehTableAux : Nat → List Facility → Option (List ((Nat × Nat) × String))
  | _, [] => some []
  | fIdx, f :: fs =>
    match vehRowAux fIdx 0 f.vehicles, vehTableAux (fIdx + 1) fs with
    | some r, some rest => some (r ++ rest)
    | _, _ => none

/-- `_prepare_mappings(base_data, test_data)`.  `none` models the
`KeyError` raised on a base-document vehicle without `attrs`; every other
malformed entry is skipped. -/
def prepare_mappings (base test : Doc) : Option Index :=
  let prods := prodTableAux (base.products ++ test.products)
  let facs := facTablesAux (base.facilities ++ test.facilities)
  let byIndex := base.facilities.map facNameD
  match vehTableAux 0 base.facilities with
  | some veh =>
    some { facilityNamesById := facs.1, facilityNamesByIndex := byIndex,
           vehicleNamesByPath := veh, geoToFacility := facs.2,
           productNamesById := prods }
  | none => none

/-- `shared_facilities_exist(base_data, test_data)`: the facility-name sets
of the two documents (raw values, including `None` for a missing name)
have a non-empty intersection. -/
def shared_facilities_exist (base test : Doc) : Bool :=
  (base.facilities.map facNameOpt).any
    (fun n => (test.facilities.map facNameOpt).any (fun m => obeq n m))

/- The change classifier and the add/remove annotator. -/

/-- A `values_changed` payload.  The old/new values are opaque to the
classifier, which only ever interpolates their `str()` rendering, so they
are modelled as the rendered strings. -/
structure ChangeRec where
  old_value : String
  new_value : String
deriving DecidableEq

/-- The product-id resolution loop of `describe_change` (lines 81-88):
take the product at `product_index` from the base document's products if
its id is truthy, otherwise from the test document's.  The collapsed
`none`/falsy distinction is unobservable: every use is guarded by a
truthiness test. -/
def resolveProductId (base test : Doc) : Option Nat → Option JVal
  | none => none
  | some pi =>
    let basePid :=
      match base.products.get? pi with
      | some pr => pr.attrs.bind ProdAttrs.id
      | none => none
    if jTruthyO basePid then basePid
    else
      match test.products.get? pi with
      | some pr => pr.attrs.bind ProdAttrs.id
      | none => basePid

/-- The branch chain of `describe_change` below the vehicle-rename
suppression (source lines 80-149): every branch renders a string, the
last being the generic fallback.  Branch order matches the source. -/
def describe_change_body (idx : Index) (base test : Doc) (c : Nat) (p : String)
    (ch : ChangeRec) : String :=
    let facility_index := searchIdxS "facilities" p
    let vehicle_index := searchIdxS "vehicles" p
    let product_index := searchIdxS "products" p
    let stop_match := searchIdxS "stops" p
    let stopIdxStr :=
      match stop_match with
      | some n => Nat.repr (n + 1)
      | none => "?"
    let facility_name :=
      match facility_index with
      | some i => get_facility_name_by_index idx i
      | none => "Unknown Facility"
    let vehicle_name :=
      match facility_index, vehicle_index with
      | some fi, some vi => get_vehicle_name_by_fac_index idx fi vi
      | _, _ => "Unknown Vehicle"
    let product_id := resolveProductId base test product_index
    let product_name :=
      (match product_id with
       | some pid => List.lookup (pyStr pid) idx.productNamesById
       | none => none).getD
        (match product_index with
         | some i => "Product #" ++ Nat.repr (i + 1)
         | none => "Unknown Product")
    let pidT := jTruthyO product_id
    let fv := ch.old_value
    let tv := ch.new_value
    if pidT && endsWithS p "['attrs']['name']" then
      (Nat.repr c ++ ". Product name changed for " ++ product_name ++
        ":\n   - From: \"" ++ fv ++ "\"\n   - To:   \"" ++ tv ++ "\"")
    else if pidT && endsWithS p "['attrs']['price']" then
      (Nat.repr c ++ ". Product cost changed for " ++ product_name ++
        ":\n   - From: " ++ fv ++ "\n   - To:   " ++ tv)
    else if pidT && endsWithS p "['attrs']['weight']" then
      (Nat.repr c ++ ". Product weight changed for " ++ product_name ++
        ":\n   - From: " ++ fv ++ "\n   - To:   " ++ tv)
    else if pidT && endsWithS p "['attrs']['cube_size']" then
      (Nat.repr c ++ ". Product size changed for " ++ product_name ++
        ":\n   - From: " ++ fv ++ "\n   - To:   " ++ tv)
    else if containsS p "['storage_capacity']" then
      (Nat.repr c ++ ". Storage capacity changed at '" ++ facility_name ++
        "':\n   - From: " ++ fv ++ "\n   - To:   " ++ tv)
    else if containsS p "['outputs']" then
      (Nat.repr c ++ ". Output quantity changed at facility item in '" ++
        facility_name ++ "':\n   - From: " ++ fv ++ "\n   - To:   " ++ tv)
    else if containsS p "['demands']" then
      (Nat.repr c ++ ". Demand quantity changed at facility item in '" ++
        facility_name ++ "':\n   - From: " ++ fv ++ "\n   - To:   " ++ tv)
    else if containsS p "['daily_carbon_output_kg']" then
      (Nat.repr c ++ ". Carbon Output quantity changed at facility item in '" ++
        facility_name ++ "':\n   - From: " ++ fv ++ "\n   - To:   " ++ tv)
    else if containsS p "['stored']" then
      (Nat.repr c ++ ". Quantity on Hand changed at facility item in '" ++
        facility_name ++ "':\n   - From: " ++ fv ++ "\n   - To:   " ++ tv)
    else if containsS p "['rent_cost']" then
      (Nat.repr c ++ ". Daily Rent Cost changed at facility item in '" ++
        facility_name ++ "':\n   - From: " ++ fv ++ "\n   - To:   " ++ tv)
    else if containsS p "['opt_cost']" then
      (Nat.repr c ++ ". Daily Operating Cost changed at facility item in '" ++
        facility_name ++ "':\n   - From: " ++ fv ++ "\n   - To:   " ++ tv)
    else if facility_index.isSome && endsWithS p "['attrs']['name']" &&
        startsWithS p "root['facilities']" && !containsS p "['vehicles']" then
      (Nat.repr c ++ ". Facility Name changed at facility item in '" ++
        facility_name ++ "':\n   - From: " ++ fv ++ "\n   - To:   " ++ tv)
    else if containsS p "['delay']" then
      (Nat.repr c ++ ". Vehicle delay changed for '" ++ vehicle_name ++
        "' at '" ++ facility_name ++ "':\n   - From: " ++ fv ++ "\n   - To:   " ++ tv)
    else if vehicle_index.isSome && endsWithS p "['attrs']['carry_volume']" then
      (Nat.repr c ++ ". Vehicle carry volume changed for '" ++ vehicle_name ++
        "' at '" ++ facility_name ++ "':\n   - From: " ++ fv ++ "\n   - To:   " ++ tv)
    else if vehicle_index.isSome && endsWithS p "['attrs']['speed']" then
      (Nat.repr c ++ ". Vehicle speed changed for '" ++ vehicle_name ++
        "' at '" ++ facility_name ++ "':\n   - From: " ++ fv ++ "\n   - To:   " ++ tv)
    else if vehicle_index.isSome && endsWithS p "['attrs']['cost_per_km']" then
      (Nat.repr c ++ ". Vehicle cost per km changed for '" ++ vehicle_name ++
        "' at '" ++ facility_name ++ "':\n   - From: " ++ fv ++ "\n   - To:   " ++ tv)
    else if vehicle_index.isSome && endsWithS p "['attrs']['max_weight']" then
      (Nat.repr c ++ ". Vehicle max weight changed for '" ++ vehicle_name ++
        "' at '" ++ facility_name ++ "':\n   - From: " ++ fv ++ "\n   - To:   " ++ tv)
    else if vehicle_index.isSome && endsWithS p "['attrs']['carbon_kg_per_km']" then
      (Nat.repr c ++ ". Vehicle carbon emissions per km changed for '" ++
        vehicle_name ++ "' at '" ++ facility_name ++
        "':\n   - From: " ++ fv ++ "\n   - To:   " ++ tv)
    else if containsS p "['geopath']" then
      (Nat.repr c ++ ". Route path (geopath) changed for " ++ vehicle_name ++
        " at '" ++ facility_name ++
        "':\n   - (Old and new paths differ; string too long to display.)")
    else if endsWithS p "['attrs']['distance']" && stop_match.isSome then
      (Nat.repr c ++ ". Stop distance changed at stop #" ++ stopIdxStr ++
        " (" ++ vehicle_name ++ ", Facility '" ++ facility_name ++
        "'):\n   - From: " ++ fv ++ " meters\n   - To:   " ++ tv ++ " meters")
    else if endsWithS p "['attrs']['drop_vol']" then
      (Nat.repr c ++ ". Drop volume changed at stop #" ++ stopIdxStr ++
        " (" ++ vehicle_name ++ ", Facility '" ++ facility_name ++
        "'):\n   - From: " ++ fv ++ "\n   - To:   " ++ tv)
    else if endsWithS p "['attrs']['distance']" && !stop_match.isSome then
      (Nat.repr c ++ ". Route distance changed (Facility '" ++ facility_name ++
        "' → " ++ vehicle_name ++ "):\n   - From: " ++ fv ++ " meters\n   - To:   " ++ tv)
    else if p == "root['attrs']['name']" then
      (Nat.repr c ++ ". Scenario name changed:\n   - From: \"" ++ fv ++
        "\"\n   - To:   \"" ++ tv ++ "\"")
    else
      (Nat.repr c ++ ". Change at " ++ p ++ ":\n   - From: " ++ fv ++
        "\n   - To:   " ++ tv)

/-- `describe_change(path, change)` of `main.py`, with the module state it
reads (`describe_change.counter`, the mapping tables, `base_data`,
`test_data`) passed explicitly.  Returns `none` exactly for the
vehicle-rename suppression (source lines 77-79); that check is written
first here — the source computes the name lookups before it, but they are
pure; otherwise the branch chain `describe_change_body` renders the line. -/
def describe_change (idx : Index) (base test : Doc) (c : Nat) (p : String)
    (ch : ChangeRec) : Option String :=
  if (searchIdxS "vehicles" p).isSome && endsWithS p "['attrs']['name']" then
    none
  else
    some (describe_change_body idx base test c p ch)

/-- The facility shape of `describe_add_remove` (source line 161):
`"['facilities']" in path and "['attrs']" in path and isinstance(value,
dict) and 'name' in value`. -/
def isFacilityShape (p : String) (v : JVal) : Bool :=
  containsS p "['facilities']" && containsS p "['attrs']" && jIsDict v &&
    (jget v "name").isSome

/-- The vehicle shape (source line 166): the anchored
`facilities[i].vehicles[j]` path with a dict value. -/
def isVehicleShape (p : String) (v : JVal) : Bool :=
  isVehicleItemPath p && jIsDict v

/-- The stop shape (source line 172): a `stops[k]` path with a dict
value. -/
def isStopShape (p : String) (v : JVal) : Bool :=
  (searchIdxS "stops" p).isSome && jIsDict v

/-- One of the three recognized add/remove entity shapes. -/
def arRecognized (p : String) (v : JVal) : Bool :=
  isFacilityShape p v || isVehicleShape p v || isStopShape p v

/-- `describe_add_remove(path, value, is_addition)` of `main.py`, with
`describe_add_remove.counter` and the tables passed explicitly.  The
rendered sequence number is `counter + 1`, as in the source. -/
def describe_add_remove (idx : Index) (c : Nat) (p : String) (v : JVal)
    (is_addition : Bool) : Option String :=
  let vehicle_index := searchIdxS "vehicles" p
  let facility_index := searchIdxS "facilities" p
  let vehicle_name :=
    match facility_index, vehicle_index with
    | some fi, some vi => get_vehicle_name_by_fac_index idx fi vi
    | _, _ => "Unknown Vehicle"
  if isFacilityShape p v then
    let name := pyStr (jgetD v "name" (JVal.str "(Unnamed Facility)"))
    some (Nat.repr (c + 1) ++ ". Facility " ++
      (if is_addition then "added" else "removed") ++ ": \"" ++ name ++ "\"")
  else if isVehicleShape p v then
    let name := pyStr (jgetD (jgetD v "attrs" (JVal.dict [])) "name"
      (JVal.str "(Unnamed Vehicle)"))
    some (Nat.repr (c + 1) ++ ". Vehicle " ++
      (if is_addition then "added" else "removed") ++ ": \"" ++ name ++ "\"")
  else if isStopShape p v then
    let geo := jget v "geo"
    let end_fac_id := jget (jgetD v "attrs" (JVal.dict [])) "end_facility_id"
    let dest_name :=
      if jTruthyO geo then get_facility_name_by_geo idx (geo.getD JVal.null)
      else if jTruthyO end_fac_id then
        get_facility_name_by_id idx (pyStr (end_fac_id.getD JVal.null))
      else "(Unknown Destination)"
    some (Nat.repr (c + 1) ++ ". Stop " ++
      (if is_addition then "added to" else "removed from") ++ " route (" ++
      vehicle_name ++ "):\n   - Destination: '" ++ dest_name ++ "'")
  else none

/- The per-file report assembly of `compare_multiple_files`. -/

/-- The three groups returned by the external structural-diff primitive,
in diff-iteration (insertion) order. -/
structure DiffRes where
  values_changed : List (String × ChangeRec)
  iterable_item_added : List (String × JVal)
  iterable_item_removed : List (String × JVal)

/-- The `values_changed` loop (source lines 355-359): skip ignored paths;
for a surviving path append the classifier result — `None` included —
and increment the counter unconditionally.  Returns the accumulated
entries and the final counter. -/
def changedLoop (idx : Index) (b t : Doc) :
    Nat → List (String × ChangeRec) → List (Option String) × Nat
  | c, [] => ([], c)
  | c, e :: es =>
    if is_ignored_path e.1 then changedLoop idx b t c es
    else
      let r := changedLoop idx b t (c + 1) es
      (describe_change idx b t c e.1 e.2 :: r.1, r.2)

/-- The add/remove loops (source lines 361-371): append only recognized
entries, incrementing the counter only for them. -/
def arLoop (idx : Index) (is_addition : Bool) :
    Nat → List (String × JVal) → List String × Nat
  | c, [] => ([], c)
  | c, e :: es =>
    match describe_add_remove idx c e.1 e.2 is_addition with
    | some d =>
      let r := arLoop idx is_addition (c + 1) es
      (d :: r.1, r.2)
    | none => arLoop idx is_addition c es

/-- The `lines` list of `compare_multiple_files`: classifier results for
surviving changed paths (including `None` for suppressed ones), then the
addition lines, then the removal lines; the add/remove counter starts at
`describe_change.counter - 1`. -/
def compareLines (idx : Index) (b t : Doc) (d : DiffRes) : List (Option String) :=
  let cl := changedLoop idx b t 1 d.values_changed
  let al := arLoop idx true (cl.2 - 1) d.iterable_item_added
  let rl := arLoop idx false al.2 d.iterable_item_removed
  cl.1 ++ al.1.map some ++ rl.1.map some

/-- The lines that survive the `if l` filter of the final join: non-`None`
and non-empty (every produced line is in fact non-empty). -/
def survivors (idx : Index) (b t : Doc) (d : DiffRes) : List String :=
  ((compareLines idx b t d).filterMap id).filter (fun s => !s.isEmpty)

def sentinelStr : String :=
  "✅ Only differences in ignored fields. No meaningful changes."

def warningStr : String :=
  "⚠️ No shared facility names between base and test file. Likely wrong model — comparison skipped."

/-- `result = "\n\n".join([str(l) for l in lines if l]) if lines else
"✅ Only differences in ignored fields. No meaningful changes."`. -/
def compareReport (idx : Index) (b t : Doc) (d : DiffRes) : String :=
  if (compareLines idx b t d).isEmpty then sentinelStr
  else String.intercalate "\n\n" (survivors idx b t d)

/-- One iteration of the `compare_multiple_files` loop for a loaded test
document: build the mappings (a raise propagates as `none`), run the
shared-facility guard — short-circuiting with the warning — and otherwise
classify the external diff primitive's output.  The primitive itself is a
parameter, so that its non-invocation on the guarded branch is expressible. -/
def compareOne (diffFn : Doc → Doc → DiffRes) (base test : Doc) : Option String :=
  match prepare_mappings base test with
  | none => none
  | some idx =>
    if !shared_facilities_exist base test then some warningStr
    else some (compareReport idx base test (diffFn base test))

/-- The batch loop over the uploaded files: results are stored per file
name; an uncaught exception aborts the whole callback (there is no
per-file isolation in the source). -/
def compareBatch (diffFn : Doc → Doc → DiffRes) (base : Doc) :
    List (String × Doc) → Option (List (String × String))
  | [] => some []
  | (fname, t) :: rest =>
    match compareOne diffFn base t with
    | none => none
    | some r => (compareBatch diffFn base rest).map (fun rs => (fname, r) :: rs)

/-- A trivial diff primitive (used to instantiate `diffFn` in concrete
evaluations). -/
def emptyDiffFn : Doc → Doc → DiffRes :=
  fun _ _ => ⟨[], [], []⟩

/- Observation helpers used to state properties of rendered reports, and
the spec-side reading of the ignored-path rule (for comparison with the
implementation's behaviour). -/

/-- Split a rendered report at blank-line separators (Python
`s.split("\n\n")`), accumulating the current line in reverse. -/
def splitNNAux (acc : List Char) : List Char → List String
  | [] => [String.mk acc.reverse]
  | '\n' :: '\n' :: t => String.mk acc.reverse :: splitNNAux [] t
  | c :: t => splitNNAux (c :: acc) t

/-- The rendered lines of a report (its blank-line separated blocks). -/
def reportLinesOf (s : String) : List String :=
  splitNNAux [] s.data

/-- The sequence numbers carried by a report's rendered lines. -/
def lineNumbersOf (s : String) : List Nat :=
  (reportLinesOf s).map leadingNum

/-- All bracketed quoted field names of a path, in order. -/
def segmentsAux : List Char → List (List Char)
  | [] => []
  | c :: t =>
    (if c = '[' ∧ t.head? = some '\'' then
      match segScan t.tail with
      | some m => [m]
      | none => []
     else []) ++ segmentsAux t

/-- The spec's reading of the ignored-path rule: `id` occurs
case-insensitively in the path's LAST bracketed field name. -/
def specIgnoredLastSeg (p : String) : Bool :=
  match (segmentsAux p.data).getLast? with
  | some m => hasInfix ['i', 'd'] (m.map Char.toLower)
  | none => false

/- Helper lemmas. -/

theorem segScan_cons_of {c : Char} {t : List Char} (h1 : c ≠ ']')
    (h2 : t.head? ≠ some ']') :
    segScan (c :: t) = (segScan t).map (fun m => c :: m) := by
  simp only [segScan]
  rw [if_neg h1, if_neg h2]

theorem head?_seg_ne {m post : List Char} (hm : ']' ∉ m) :
    (m ++ '\'' :: ']' :: post).head? ≠ some ']' := by
  cases m with
  | nil => simp
  | cons b m' =>
    have hb : b ≠ ']' := by intro h; exact hm (by simp [h])
    simp [hb]

theorem segScan_append : ∀ {m : List Char}, ']' ∉ m → ∀ (post : List Char),
    segScan (m ++ '\'' :: ']' :: post) = some m := by
  intro m
  induction m with
  | nil => intro _ post; simp [segScan]
  | cons a m ih =>
    intro hm post
    simp only [List.mem_cons, not_or] at hm
    have ha : a ≠ ']' := fun h => hm.1 h.symm
    have hm' : ']' ∉ m := hm.2
    rw [List.cons_append, segScan_cons_of ha (head?_seg_ne hm'), ih hm' post]
    rfl

theorem segScan_some : ∀ {t m : List Char}, segScan t = some m →
    ']' ∉ m ∧ ∃ post, t = m ++ '\'' :: ']' :: post := by
  intro t
  induction t with
  | nil => intro m h; simp [segScan] at h
  | cons c t ih =>
    intro m h
    simp only [segScan] at h
    by_cases h1 : c = ']'
    · rw [if_pos h1] at h
      cases h
    · rw [if_neg h1] at h
      by_cases h2 : t.head? = some ']'
      · rw [if_pos h2] at h
        by_cases h3 : c = '\''
        · rw [if_pos h3] at h
          injection h with h'
          subst h'
          cases t with
          | nil => simp at h2
          | cons x xs =>
            simp only [List.head?_cons, Option.some.injEq] at h2
            subst h2
            subst h3
            exact ⟨List.not_mem_nil _, xs, rfl⟩
        · rw [if_neg h3] at h
          cases h
      · rw [if_neg h2] at h
        rw [Option.map_eq_some'] at h
        obtain ⟨m', hm', rfl⟩ := h
        obtain ⟨hnot, post, rfl⟩ := ih hm'
        exact ⟨by simp [hnot, Ne.symm h1], post, rfl⟩

theorem ignoredAux_iff (l : List Char) : ignoredAux l = true ↔
    ∃ pre m post, l = pre ++ '[' :: '\'' :: (m ++ '\'' :: ']' :: post) ∧
      ']' ∉ m ∧ hasInfix ['i', 'd'] (m.map Char.toLower) = true := by
  constructor
  · induction l with
    | nil => intro h; simp [ignoredAux] at h
    | cons c t ih =>
      intro h
      simp only [ignoredAux, Bool.or_eq_true] at h
      rcases h with h | h
      · split_ifs at h with hc
        · obtain ⟨hcb, hhead⟩ := hc
          cases t with
          | nil => simp at hhead
          | cons x xs =>
            simp only [List.head?_cons, Option.some.injEq] at hhead
            simp only [List.tail_cons] at h
            cases hseg : segScan xs with
            | none => rw [hseg] at h; cases h
            | some m =>
              rw [hseg] at h
              obtain ⟨hnot, post, rfl⟩ := segScan_some hseg
              exact ⟨[], m, post, by simp [hcb, hhead], hnot, h⟩
      · obtain ⟨pre, m, post, rfl, hnot, hid⟩ := ih h
        exact ⟨c :: pre, m, post, by simp, hnot, hid⟩
  · rintro ⟨pre, m, post, rfl, hnot, hid⟩
    induction pre with
    | nil =>
      simp only [List.nil_append, ignoredAux, Bool.or_eq_true]
      left
      rw [if_pos (by simp)]
      simp only [List.tail_cons]
      rw [segScan_append hnot post]
      exact hid
    | cons a pre ih =>
      simp only [List.cons_append, ignoredAux, Bool.or_eq_true]
      right
      simpa using ih

theorem describe_change_eq_none_iff (idx : Index) (b t : Doc) (c : Nat)
    (p : String) (ch : ChangeRec) :
    describe_change idx b t c p ch = none ↔
      ((searchIdxS "vehicles" p).isSome && endsWithS p "['attrs']['name']") = true := by
  by_cases hc : ((searchIdxS "vehicles" p).isSome && endsWithS p "['attrs']['name']") = true <;>
    simp [describe_change, hc]

theorem describe_add_remove_isSome (idx : Index) (c : Nat) (p : String)
    (v : JVal) (b_ : Bool) :
    (describe_add_remove idx c p v b_).isSome = arRecognized p v := by
  by_cases h1 : isFacilityShape p v = true
  · simp [describe_add_remove, arRecognized, h1]
  · by_cases h2 : isVehicleShape p v = true
    · simp [describe_add_remove, arRecognized, h1, h2]
    · by_cases h3 : isStopShape p v = true
      · simp [describe_add_remove, arRecognized, h1, h2, h3]
      · simp [describe_add_remove, arRecognized, h1, h2, h3]

/-- Closed form of the `values_changed` loop. -/
theorem changedLoop_eq (idx : Index) (b t : Doc) :
    ∀ (cs : List (String × ChangeRec)) (c : Nat),
    changedLoop idx b t c cs =
      ((List.enumFrom c (cs.filter (fun e => !is_ignored_path e.1))).map
          (fun pe => describe_change idx b t pe.1 pe.2.1 pe.2.2),
        c + (cs.filter (fun e => !is_ignored_path e.1)).length) := by
  intro cs
  induction cs with
  | nil => intro c; simp [changedLoop]
  | cons e es ih =>
    intro c
    by_cases h : is_ignored_path e.1 = true
    · simp [changedLoop, h, ih]
    · simp only [Bool.not_eq_true] at h
      simp only [changedLoop, h, Bool.false_eq_true, if_false, ih (c + 1),
        List.filter_cons, Bool.not_false, if_pos, List.enumFrom_cons, List.map_cons,
        List.length_cons, Prod.mk.injEq]
      exact ⟨trivial, by omega⟩

/-- Closed form of the add/remove loops. -/
theorem arLoop_eq (idx : Index) (b_ : Bool) :
    ∀ (es : List (String × JVal)) (c : Nat),
    arLoop idx b_ c es =
      ((List.enumFrom c (es.filter (fun e => arRecognized e.1 e.2))).filterMap
          (fun pe => describe_add_remove idx pe.1 pe.2.1 pe.2.2 b_),
        c + (es.filter (fun e => arRecognized e.1 e.2)).length) := by
  intro es
  induction es with
  | nil => intro c; simp [arLoop]
  | cons e es ih =>
    intro c
    cases hd : describe_add_remove idx c e.1 e.2 b_ with
    | some d =>
      have hrec : arRecognized e.1 e.2 = true := by
        rw [← describe_add_remove_isSome idx c e.1 e.2 b_, hd]
        rfl
      simp only [arLoop, hd, ih (c + 1), List.filter_cons, hrec, if_pos,
        List.enumFrom_cons, List.filterMap_cons, hd, List.length_cons, Prod.mk.injEq]
      exact ⟨trivial, by omega⟩
    | none =>
      have hrec : arRecognized e.1 e.2 = false := by
        rw [← describe_add_remove_isSome idx c e.1 e.2 b_, hd]
        rfl
      simp [arLoop, hd, ih c, List.filter_cons, hrec]

/-- A base document all of whose vehicles carry `attrs` never makes the
vehicle-row construction raise. -/
theorem vehRowAux_isSome (fIdx : Nat) :
    ∀ (vs : List Vehicle) (vIdx : Nat), (∀ v ∈ vs, v.attrs.isSome) →
    (vehRowAux fIdx vIdx vs).isSome := by
  intro vs
  induction vs with
  | nil => intro vIdx _; simp [vehRowAux]
  | cons v vs ih =>
    intro vIdx h
    obtain ⟨a, ha⟩ := Option.isSome_iff_exists.mp (h v (by simp))
    obtain ⟨rest, hrest⟩ := Option.isSome_iff_exists.mp
      (ih (vIdx + 1) (fun w hw => h w (by simp [hw])))
    simp [vehRowAux, ha, hrest]

/-- Same, lifted over the facility list. -/
theorem vehTableAux_isSome :
    ∀ (facs : List Facility) (fIdx : Nat),
    (∀ f ∈ facs, ∀ v ∈ f.vehicles, v.attrs.isSome) →
    (vehTableAux fIdx facs).isSome := by
  intro facs
  induction facs with
  | nil => intro fIdx _; simp [vehTableAux]
  | cons f fs ih =>
    intro fIdx h
    obtain ⟨r, hr⟩ := Option.isSome_iff_exists.mp
      (vehRowAux_isSome fIdx f.vehicles 0 (h f (by simp)))
    obtain ⟨rest, hrest⟩ := Option.isSome_iff_exists.mp
      (ih (fIdx + 1) (fun g hg => h g (by simp [hg])))
    simp [vehTableAux, hr, hrest]

/-- `_prepare_mappings` succeeds whenever every base-document vehicle has
an `attrs` structure (products and facilities are unconstrained: their
malformed entries are skipped, never raised on). -/
theorem prepare_mappings_isSome (base test : Doc)
    (h : ∀ f ∈ base.facilities, ∀ v ∈ f.vehicles, v.attrs.isSome) :
    (prepare_mappings base test).isSome := by
  obtain ⟨veh, hveh⟩ := Option.isSome_iff_exists.mp (vehTableAux_isSome base.facilities 0 h)
  simp [prepare_mappings, hveh]

/-- Every key of the geo table built by the facility loop is a pair of
4-decimal-rounded coordinates. -/
theorem facTablesAux_geo_mem :
    ∀ (facs : List Facility) (e : (ℚ × ℚ) × String), e ∈ (facTablesAux facs).2 →
    ∃ la lo, e.1 = (round4 la, round4 lo) := by
  intro facs
  induction facs with
  | nil => intro e he; simp [facTablesAux] at he
  | cons f fs ih =>
    intro e he
    simp only [facTablesAux] at he
    rcases hattrs : f.attrs with _ | a <;> simp only [hattrs] at he
    · exact ih e he
    · rcases hla : a.lat.bind pyFloat with _ | la <;> simp only [hla] at he
      · exact ih e he
      · rcases hlo : a.lon.bind pyFloat with _ | lo <;> simp only [hlo] at he
        · exact ih e he
        · simp only [rounded_geo, pyFloat, List.mem_append, List.mem_singleton] at he
          rcases he with he | he
          · exact ih e he
          · exact ⟨la, lo, by rw [he]⟩

/- Claims. -/

/-- C2: every `Changed` diff entry whose path lies under a vehicle
(contains a `vehicles` index) and ends at the `attrs.name` field is
suppressed by the Change Classifier — `describe_change` returns `none`
regardless of the old/new values, the sequence number, the index tables
and the documents, so no line for the entry appears in a rendered
report. -/
theorem C2_vehicle_rename_suppressed (idx : Index) (b t : Doc) (c : Nat)
    (p : String) (ch : ChangeRec)
    (h1 : (searchIdxS "vehicles" p).isSome = true)
    (h2 : endsWithS p "['attrs']['name']" = true) :
    describe_change idx b t c p ch = none := by
  rw [describe_change_eq_none_iff]
  rw [h1, h2]
  rfl

/-- Witness for C2 at the path of the first vehicle's name field. -/
theorem C2_vehicle_rename_suppressed_witness :
    (searchIdxS "vehicles" "root['facilities'][0]['vehicles'][1]['attrs']['name']").isSome = true ∧
    endsWithS "root['facilities'][0]['vehicles'][1]['attrs']['name']" "['attrs']['name']" = true ∧
    describe_change ⟨[], [], [], [], []⟩ ⟨[], []⟩ ⟨[], []⟩ 1
      "root['facilities'][0]['vehicles'][1]['attrs']['name']" ⟨"Truck A", "Truck B"⟩ = none :=
  ⟨by decide, by decide,
    C2_vehicle_rename_suppressed ⟨[], [], [], [], []⟩ ⟨[], []⟩ ⟨[], []⟩ 1
      "root['facilities'][0]['vehicles'][1]['attrs']['name']" ⟨"Truck A", "Truck B"⟩
      (by decide) (by decide)⟩

/-- C10: if the base document and the test document each contain a
facility whose `attrs` lack a `name`, the shared-context guard returns
`true` even when no actual facility name occurs in both documents,
because the missing-name value (`None`) is a member of both name sets. -/
theorem C10_absent_names_make_guard_true (b t : Doc)
    (h1 : ∃ f ∈ b.facilities, facNameOpt f = none)
    (h2 : ∃ g ∈ t.facilities, facNameOpt g = none)
    (_h3 : ∀ s : JVal, ¬(some s ∈ b.facilities.map facNameOpt ∧
      some s ∈ t.facilities.map facNameOpt)) :
    shared_facilities_exist b t = true := by
  obtain ⟨f, hf, hfn⟩ := h1
  obtain ⟨g, hg, hgn⟩ := h2
  unfold shared_facilities_exist
  rw [List.any_eq_true]
  refine ⟨none, ?_, ?_⟩
  · rw [← hfn]
    exact List.mem_map_of_mem facNameOpt hf
  · rw [List.any_eq_true]
    refine ⟨none, ?_, rfl⟩
    rw [← hgn]
    exact List.mem_map_of_mem facNameOpt hg

/-- Witness for C10: both documents hold one facility with an empty
`attrs`, no real name is shared, yet the guard passes. -/
theorem C10_absent_names_make_guard_true_witness :
    (∃ f ∈ (⟨[⟨none, some ⟨none, none, none, none⟩, []⟩], []⟩ : Doc).facilities,
      facNameOpt f = none) ∧
    (∃ g ∈ (⟨[⟨none, some ⟨none, none, none, none⟩, []⟩], []⟩ : Doc).facilities,
      facNameOpt g = none) ∧
    shared_facilities_exist ⟨[⟨none, some ⟨none, none, none, none⟩, []⟩], []⟩
      ⟨[⟨none, some ⟨none, none, none, none⟩, []⟩], []⟩ = true :=
  ⟨⟨⟨none, some ⟨none, none, none, none⟩, []⟩, by simp, rfl⟩,
    ⟨⟨none, some ⟨none, none, none, none⟩, []⟩, by simp, rfl⟩,
    C10_absent_names_make_guard_true _ _
      ⟨⟨none, some ⟨none, none, none, none⟩, []⟩, by simp, rfl⟩
      ⟨⟨none, some ⟨none, none, none, none⟩, []⟩, by simp, rfl⟩
      (by intro s; simp [facNameOpt])⟩

/-- C7: the Add/Remove Annotator renders a facility line for every entry
whose path lies under `facilities` and mentions `attrs` and whose value
is a structure bearing a `name`; an entry matching none of the three
recognized shapes (facility item, vehicle item, stop item) yields `none`
and produces no line. -/
theorem C7_add_remove_annotator :
    (∀ (idx : Index) (c : Nat) (p : String) (entries : List (String × JVal))
        (nm : String) (isAdd : Bool),
      containsS p "['facilities']" = true →
      containsS p "['attrs']" = true →
      List.lookup "name" entries = some (JVal.str nm) →
      describe_add_remove idx c p (JVal.dict entries) isAdd =
        some (Nat.repr (c + 1) ++ ". Facility " ++
          (if isAdd then "added" else "removed") ++ ": \"" ++ nm ++ "\"")) ∧
    (∀ (idx : Index) (c : Nat) (p : String) (v : JVal) (isAdd : Bool),
      isFacilityShape p v = false → isVehicleShape p v = false →
      isStopShape p v = false →
      describe_add_remove idx c p v isAdd = none) := by
  constructor
  · intro idx c p entries nm isAdd h1 h2 h3
    have hshape : isFacilityShape p (JVal.dict entries) = true := by
      simp [isFacilityShape, h1, h2, jIsDict, jget, h3]
    simp [describe_add_remove, hshape, jgetD, jget, h3, pyStr]
  · intro idx c p v isAdd h1 h2 h3
    simp [describe_add_remove, h1, h2, h3]

/-- Witness for C7: a facility `attrs` addition renders the facility
line; a product addition matches no shape and is dropped. -/
theorem C7_add_remove_annotator_witness :
    describe_add_remove ⟨[], [], [], [], []⟩ 3 "root['facilities'][2]['attrs']"
      (JVal.dict [("name", JVal.str "Warehouse X")]) true =
      some "4. Facility added: \"Warehouse X\"" ∧
    describe_add_remove ⟨[], [], [], [], []⟩ 0 "root['products'][0]"
      (JVal.dict [("x", JVal.null)]) true = none :=
  ⟨C7_add_remove_annotator.1 ⟨[], [], [], [], []⟩ 3 "root['facilities'][2]['attrs']"
      [("name", JVal.str "Warehouse X")] "Warehouse X" true (by decide) (by decide) rfl,
    C7_add_remove_annotator.2 ⟨[], [], [], [], []⟩ 0 "root['products'][0]"
      (JVal.dict [("x", JVal.null)]) true (by decide) (by decide) (by decide)⟩

/-- C5 counterexample: `EntityIndex` construction DOES raise — a base
document whose facility owns a vehicle without `attrs` hits the bare
`v["attrs"]` subscript (`KeyError`), refuting "construction never
raises" for the malformed-vehicle case listed by the claim. -/
theorem C5_counterexample :
    prepare_mappings ⟨[⟨none, none, [⟨none⟩]⟩], []⟩ ⟨[], []⟩ = none := by
  rfl

/-- C5 (amended): `EntityIndex` construction never raises provided every
vehicle listed under a base-document facility carries an `attrs`
structure; malformed products and facilities (missing id, missing or
non-numeric coordinates) are unconstrained — they are skipped silently
and the remaining entries are still indexed. -/
theorem C5_amended_prepare_never_raises (base test : Doc)
    (h : ∀ f ∈ base.facilities, ∀ v ∈ f.vehicles, v.attrs.isSome) :
    (prepare_mappings base test).isSome :=
  prepare_mappings_isSome base test h

/-- Witness for the amended C5: a base document with a malformed product
(no attrs), a facility with unparsable coordinates and a well-formed
vehicle still indexes without raising. -/
theorem C5_amended_prepare_never_raises_witness :
    (∀ f ∈ (⟨[⟨none, some ⟨none, some (JVal.str "A"), some JVal.null, none⟩,
        [⟨some ⟨some (JVal.str "Van")⟩⟩]⟩], [⟨none⟩]⟩ : Doc).facilities,
      ∀ v ∈ f.vehicles, v.attrs.isSome) ∧
    (prepare_mappings ⟨[⟨none, some ⟨none, some (JVal.str "A"), some JVal.null, none⟩,
        [⟨some ⟨some (JVal.str "Van")⟩⟩]⟩], [⟨none⟩]⟩ ⟨[], []⟩).isSome :=
  ⟨by decide,
    C5_amended_prepare_never_raises
      ⟨[⟨none, some ⟨none, some (JVal.str "A"), some JVal.null, none⟩,
        [⟨some ⟨some (JVal.str "Van")⟩⟩]⟩], [⟨none⟩]⟩ ⟨[], []⟩ (by decide)⟩

/-- C6: evaluation at the failing input.  A facility whose id lives in
its `attrs` — as the data model prescribes — is never entered into the
facility-by-id table, because the source reads a top-level `f['id']` key:
the table comes out empty, the id lookup falls to the placeholder, and a
removed stop with `end_facility_id = 7` is narrated with `Facility ID 7`
instead of the facility's name `Depot`. -/
theorem C6_code_eval :
    (prepare_mappings ⟨[⟨none, some ⟨some (JVal.int 7), some (JVal.str "Depot"),
        none, none⟩, []⟩], []⟩ ⟨[], []⟩).map Index.facilityNamesById = some [] ∧
    (prepare_mappings ⟨[⟨none, some ⟨some (JVal.int 7), some (JVal.str "Depot"),
        none, none⟩, []⟩], []⟩ ⟨[], []⟩).map
      (fun idx => get_facility_name_by_id idx "7") = some "Facility ID 7" ∧
    (prepare_mappings ⟨[⟨none, some ⟨some (JVal.int 7), some (JVal.str "Depot"),
        none, none⟩, []⟩], []⟩ ⟨[], []⟩).map
      (fun idx => describe_add_remove idx 0
        "root['facilities'][0]['vehicles'][0]['stops'][0]"
        (JVal.dict [("attrs", JVal.dict [("end_facility_id", JVal.int 7)])]) false) =
      some (some "1. Stop removed from route (Vehicle (0,0)):\n   - Destination: 'Facility ID 7'") := by
  refine ⟨rfl, rfl, ?_⟩
  rfl

/-- C8 counterexample: a base/test pair with disjoint facility-name sets
whose base document carries a vehicle without `attrs`: `_prepare_mappings`
raises before the guard runs, so the stored report is NOT the warning
line and the batch aborts, refuting the universally quantified claim. -/
theorem C8_counterexample :
    shared_facilities_exist
      ⟨[⟨none, some ⟨none, some (JVal.str "A"), none, none⟩, [⟨none⟩]⟩], []⟩
      ⟨[⟨none, some ⟨none, some (JVal.str "B"), none, none⟩, []⟩], []⟩ = false ∧
    compareOne emptyDiffFn
      ⟨[⟨none, some ⟨none, some (JVal.str "A"), none, none⟩, [⟨none⟩]⟩], []⟩
      ⟨[⟨none, some ⟨none, some (JVal.str "B"), none, none⟩, []⟩], []⟩ = none ∧
    compareBatch emptyDiffFn
      ⟨[⟨none, some ⟨none, some (JVal.str "A"), none, none⟩, [⟨none⟩]⟩], []⟩
      [("test.json", ⟨[⟨none, some ⟨none, some (JVal.str "B"), none, none⟩, []⟩], []⟩)] =
      none := by
  refine ⟨by decide, rfl, rfl⟩

/-- C8 (amended): for a base/test pair with disjoint facility-name sets,
provided index preparation does not raise (every base-document vehicle
has `attrs`), the stored report is exactly the warning line, the diff
primitive is never invoked (the result does not depend on it), and the
remaining files of the batch are still processed. -/
theorem C8_amended_guard_short_circuits (base test : Doc)
    (diffFn diffFn' : Doc → Doc → DiffRes) (fname : String)
    (rest : List (String × Doc))
    (hprep : ∀ f ∈ base.facilities, ∀ v ∈ f.vehicles, v.attrs.isSome)
    (hguard : shared_facilities_exist base test = false) :
    compareOne diffFn base test = some warningStr ∧
    compareOne diffFn base test = compareOne diffFn' base test ∧
    compareBatch diffFn base ((fname, test) :: rest) =
      (compareBatch diffFn base rest).map (fun rs => (fname, warningStr) :: rs) := by
  obtain ⟨idx, hidx⟩ := Option.isSome_iff_exists.mp
    (prepare_mappings_isSome base test hprep)
  refine ⟨?_, ?_, ?_⟩
  · simp [compareOne, hidx, hguard]
  · simp [compareOne, hidx, hguard]
  · simp [compareBatch, compareOne, hidx, hguard]

/-- Witness for the amended C8: well-formed base `A`, test `B`, one more
file in the batch; the guard fires, the result ignores the diff
primitive, and the next file is still compared. -/
theorem C8_amended_guard_short_circuits_witness :
    compareOne emptyDiffFn
      ⟨[⟨none, some ⟨none, some (JVal.str "A"), none, none⟩, []⟩], []⟩
      ⟨[⟨none, some ⟨none, some (JVal.str "B"), none, none⟩, []⟩], []⟩ =
      some warningStr ∧
    compareOne emptyDiffFn
      ⟨[⟨none, some ⟨none, some (JVal.str "A"), none, none⟩, []⟩], []⟩
      ⟨[⟨none, some ⟨none, some (JVal.str "B"), none, none⟩, []⟩], []⟩ =
    compareOne (fun _ _ => ⟨[("root['attrs']['name']", ⟨"a", "b"⟩)], [], []⟩)
      ⟨[⟨none, some ⟨none, some (JVal.str "A"), none, none⟩, []⟩], []⟩
      ⟨[⟨none, some ⟨none, some (JVal.str "B"), none, none⟩, []⟩], []⟩ ∧
    compareBatch emptyDiffFn
      ⟨[⟨none, some ⟨none, some (JVal.str "A"), none, none⟩, []⟩], []⟩
      [("t1.json", ⟨[⟨none, some ⟨none, some (JVal.str "B"), none, none⟩, []⟩], []⟩),
       ("t2.json", ⟨[⟨none, some ⟨none, some (JVal.str "A"), none, none⟩, []⟩], []⟩)] =
    (compareBatch emptyDiffFn
      ⟨[⟨none, some ⟨none, some (JVal.str "A"), none, none⟩, []⟩], []⟩
      [("t2.json", ⟨[⟨none, some ⟨none, some (JVal.str "A"), none, none⟩, []⟩], []⟩)]).map
      (fun rs => ("t1.json", warningStr) :: rs) :=
  C8_amended_guard_short_circuits
    ⟨[⟨none, some ⟨none, some (JVal.str "A"), none, none⟩, []⟩], []⟩
    ⟨[⟨none, some ⟨none, some (JVal.str "B"), none, none⟩, []⟩], []⟩
    emptyDiffFn (fun _ _ => ⟨[("root['attrs']['name']", ⟨"a", "b"⟩)], [], []⟩)
    "t1.json"
    [("t2.json", ⟨[⟨none, some ⟨none, some (JVal.str "A"), none, none⟩, []⟩], []⟩)]
    (by decide) (by decide)

/-- C4 counterexample: `is_ignored_path` is NOT restricted to the path's
last segment — `root['wide']['name']` is ignored (the segment `wide`
contains `id`) although its last bracketed field name `name` does not
contain `id`, refuting the claimed "if and only if ... in its last
segment". -/
theorem C4_counterexample :
    is_ignored_path "root['wide']['name']" = true ∧
    specIgnoredLastSeg "root['wide']['name']" = false := by
  refine ⟨by decide, by decide⟩

/-- C4 (amended): `is_ignored_path(path)` returns true iff the path
contains a bracketed field name matching `id` case-insensitively in ANY
of its segments (not only the last), and every `Changed` diff entry on a
path for which it returns true is excluded before any classification rule
is applied: it contributes nothing to the loop and consumes no sequence
number. -/
theorem C4_amended_ignored_path :
    (∀ p : String, is_ignored_path p = true ↔ ∃ pre m post,
      p.data = pre ++ '[' :: '\'' :: (m ++ '\'' :: ']' :: post) ∧ ']' ∉ m ∧
      hasInfix ['i', 'd'] (m.map Char.toLower) = true) ∧
    (∀ (idx : Index) (b t : Doc) (c : Nat) (p : String) (ch : ChangeRec)
        (es : List (String × ChangeRec)),
      is_ignored_path p = true →
      changedLoop idx b t c ((p, ch) :: es) = changedLoop idx b t c es) := by
  constructor
  · intro p
    rw [is_ignored_path]
    exact ignoredAux_iff p.data
  · intro idx b t c p ch es h
    simp [changedLoop, h]

/-- Witness for the amended C4: a `Changed` entry on an id path is
dropped from the loop without consuming a number. -/
theorem C4_amended_ignored_path_witness :
    is_ignored_path "root['facilities'][0]['attrs']['id']" = true ∧
    changedLoop ⟨[], [], [], [], []⟩ ⟨[], []⟩ ⟨[], []⟩ 1
      [("root['facilities'][0]['attrs']['id']", ⟨"1", "2"⟩)] =
      changedLoop ⟨[], [], [], [], []⟩ ⟨[], []⟩ ⟨[], []⟩ 1 [] :=
  ⟨by decide,
    C4_amended_ignored_path.2 ⟨[], [], [], [], []⟩ ⟨[], []⟩ ⟨[], []⟩ 1
      "root['facilities'][0]['attrs']['id']" ⟨"1", "2"⟩ [] (by decide)⟩

/-- Rounding evaluation helper: below the half-way point, round to the
floor. -/
theorem roundHalfEven_eq_floor {q : ℚ} (h : q - ⌊q⌋ < 1/2) :
    roundHalfEven q = ⌊q⌋ := by
  show (if q - ⌊q⌋ < 1/2 then ⌊q⌋ else _) = ⌊q⌋
  rw [if_pos h]

/-- Rounding evaluation helper: above the half-way point, round up. -/
theorem roundHalfEven_eq_floor_add_one {q : ℚ} (h : 1/2 < q - ⌊q⌋) :
    roundHalfEven q = ⌊q⌋ + 1 := by
  show (if q - ⌊q⌋ < 1/2 then ⌊q⌋ else if 1/2 < q - ⌊q⌋ then ⌊q⌋ + 1 else _) = ⌊q⌋ + 1
  rw [if_neg (by linarith), if_pos h]

/-- `round4` at the three coordinate values used in the geo claims. -/
theorem round4_concrete :
    round4 (12341 / 100000 : ℚ) = 1234 / 10000 ∧
    round4 (12349 / 100000 : ℚ) = 1235 / 10000 ∧
    round4 (0 : ℚ) = 0 := by
  refine ⟨?_, ?_, ?_⟩
  · unfold round4
    rw [show ((12341 : ℚ) / 100000) * 10000 = 12341 / 10 by norm_num,
      roundHalfEven_eq_floor (by norm_num),
      show ⌊(12341 / 10 : ℚ)⌋ = 1234 by norm_num]
    norm_num
  · unfold round4
    rw [show ((12349 : ℚ) / 100000) * 10000 = 12349 / 10 by norm_num,
      roundHalfEven_eq_floor_add_one (by norm_num),
      show ⌊(12349 / 10 : ℚ)⌋ = 1234 by norm_num]
    norm_num
  · unfold round4
    rw [show ((0 : ℚ)) * 10000 = 0 by norm_num,
      roundHalfEven_eq_floor (by norm_num), Int.floor_zero]
    norm_num

/-- The unknown-facility placeholder can never coincide with a plain
facility name as short as `Depot`: the lengths differ. -/
theorem placeholder_ne_depot (s : String) :
    ("(Unknown Facility @ " ++ s ++ ")" : String) ≠ "Depot" := by
  intro h
  have hl := congrArg String.length h
  rw [String.length_append, String.length_append,
    show String.length "(Unknown Facility @ " = 20 from rfl,
    show String.length ")" = 1 from rfl,
    show String.length "Depot" = 5 from rfl] at hl
  omega

/-- C9 counterexample: two coordinate pairs that agree in their first
four decimal places (0.12341 and 0.12349: same integer part 1234 after
scaling by 10^4) do NOT resolve to the same facility name: rounding
places them in different buckets, so looking up the second misses the
facility inserted at the first and falls to the placeholder. -/
theorem C9_counterexample :
    (⌊(12341 / 100000 : ℚ) * 10000⌋ = ⌊(12349 / 100000 : ℚ) * 10000⌋) ∧
    prepare_mappings ⟨[⟨none, some ⟨none, some (JVal.str "Depot"),
        some (JVal.float (12341 / 100000)), some (JVal.float 0)⟩, []⟩], []⟩ ⟨[], []⟩ =
      some ⟨[], ["Depot"], [], [((1234 / 10000, 0), "Depot")], []⟩ ∧
    get_facility_name_by_geo ⟨[], ["Depot"], [], [((1234 / 10000, 0), "Depot")], []⟩
      (JVal.arr [JVal.float (12341 / 100000), JVal.float 0]) = "Depot" ∧
    get_facility_name_by_geo ⟨[], ["Depot"], [], [((1234 / 10000, 0), "Depot")], []⟩
      (JVal.arr [JVal.float (12349 / 100000), JVal.float 0]) ≠ "Depot" := by
  obtain ⟨hr1, hr2, hr0⟩ := round4_concrete
  refine ⟨?_, ?_, ?_, ?_⟩
  · norm_num
  · simp [prepare_mappings, vehTableAux, vehRowAux, facTablesAux, prodTableAux,
      facNameD, facNameOpt, rounded_geo, pyFloat, pyStr, hr1, hr0]
  · simp only [get_facility_name_by_geo, rounded_geo, pyFloat, hr1, hr0]
    simp [List.lookup]
  · simp only [get_facility_name_by_geo, rounded_geo, pyFloat, hr2, hr0]
    have hne : (((1235 : ℚ) / 10000, (0 : ℚ))) ≠ ((1234 : ℚ) / 10000, (0 : ℚ)) := by
      intro hcon
      rw [Prod.mk.injEq] at hcon
      exact absurd hcon.1 (by norm_num)
    simp only [List.lookup, beq_eq_false_iff_ne.mpr hne, Option.getD_none]
    exact placeholder_ne_depot _

/-- C9 (amended): insertion and lookup round through the same function
(`rounded_geo` / `round4`): any two coordinate pairs with EQUAL 4-decimal
roundings resolve to the same facility name when that rounded key is
indexed; every key of a built geo index is a 4-decimal-rounded pair; and
a lookup with unparsable coordinates yields the unknown-facility
placeholder instead of raising.  (Coordinates agreeing merely in their
first four decimal digits may straddle a rounding boundary and resolve
differently.) -/
theorem C9_amended_geo_rounding :
    (∀ (idx : Index) (g1 g2 : JVal) (k : ℚ × ℚ) (nm : String),
      rounded_geo g1 = some k → rounded_geo g2 = some k →
      List.lookup k idx.geoToFacility = some nm →
      get_facility_name_by_geo idx g1 = nm ∧ get_facility_name_by_geo idx g2 = nm) ∧
    (∀ (idx : Index) (g : JVal), rounded_geo g = none →
      get_facility_name_by_geo idx g = "(Unknown Facility @ " ++ pyStr g ++ ")") ∧
    (∀ (base test : Doc) (idx : Index), prepare_mappings base test = some idx →
      ∀ e ∈ idx.geoToFacility, ∃ la lo, e.1 = (round4 la, round4 lo)) := by
  refine ⟨?_, ?_, ?_⟩
  · intro idx g1 g2 k nm h1 h2 hk
    constructor
    · simp only [get_facility_name_by_geo, h1, hk, Option.getD_some]
    · simp only [get_facility_name_by_geo, h2, hk, Option.getD_some]
  · intro idx g h
    simp only [get_facility_name_by_geo, h]
  · intro base test idx hidx e he
    have hgeo : idx.geoToFacility = (facTablesAux (base.facilities ++ test.facilities)).2 := by
      unfold prepare_mappings at hidx
      cases hveh : vehTableAux 0 base.facilities with
      | none => rw [hveh] at hidx; cases hidx
      | some veh =>
        rw [hveh] at hidx
        cases hidx
        rfl
    rw [hgeo] at he
    exact facTablesAux_geo_mem _ e he

/-- Witness for the amended C9: an indexed key looked up through two
different parsable spellings of the same coordinates resolves
identically; a `None` geo yields the placeholder; a concrete built geo
key is a rounded pair. -/
theorem C9_amended_geo_rounding_witness :
    (get_facility_name_by_geo ⟨[], [], [], [((round4 1, round4 2), "Depot")], []⟩
        (JVal.arr [JVal.float 1, JVal.float 2]) = "Depot" ∧
      get_facility_name_by_geo ⟨[], [], [], [((round4 1, round4 2), "Depot")], []⟩
        (JVal.arr [JVal.int 1, JVal.int 2]) = "Depot") ∧
    get_facility_name_by_geo ⟨[], [], [], [((round4 1, round4 2), "Depot")], []⟩
      JVal.null = "(Unknown Facility @ None)" ∧
    (∃ la lo, ((round4 1, round4 2)) = (round4 la, round4 lo)) :=
  ⟨C9_amended_geo_rounding.1 ⟨[], [], [], [((round4 1, round4 2), "Depot")], []⟩
      (JVal.arr [JVal.float 1, JVal.float 2]) (JVal.arr [JVal.int 1, JVal.int 2])
      (round4 1, round4 2) "Depot" (by simp [rounded_geo, pyFloat])
      (by simp [rounded_geo, pyFloat]) (by simp [List.lookup]),
    C9_amended_geo_rounding.2.1 ⟨[], [], [], [((round4 1, round4 2), "Depot")], []⟩
      JVal.null rfl,
    C9_amended_geo_rounding.2.2
      ⟨[⟨none, some ⟨none, some (JVal.str "Depot"), some (JVal.float 1),
          some (JVal.float 2)⟩, []⟩], []⟩ ⟨[], []⟩
      ⟨[], ["Depot"], [], [((round4 1, round4 2), "Depot")], []⟩
      (by simp [prepare_mappings, vehTableAux, vehRowAux, facTablesAux, prodTableAux,
        facNameD, facNameOpt, rounded_geo, pyFloat, pyStr])
      ((round4 1, round4 2), "Depot") (by simp)⟩

/-- C1 counterexample: a suppressed change result DOES consume a sequence
number.  With a suppressed vehicle-rename entry followed by a scenario
rename, exactly one line survives (N = 1) but it is numbered `2`, not
`1..N`. -/
theorem C1_counterexample :
    compareOne (fun _ _ =>
        ⟨[("root['facilities'][0]['vehicles'][0]['attrs']['name']", ⟨"x", "y"⟩),
          ("root['attrs']['name']", ⟨"a", "b"⟩)], [], []⟩)
      ⟨[⟨none, some ⟨none, some (JVal.str "Depot"), none, none⟩, []⟩], []⟩
      ⟨[⟨none, some ⟨none, some (JVal.str "Depot"), none, none⟩, []⟩], []⟩ =
      some "2. Scenario name changed:\n   - From: \"a\"\n   - To:   \"b\"" ∧
    lineNumbersOf "2. Scenario name changed:\n   - From: \"a\"\n   - To:   \"b\"" = [2] := by
  refine ⟨rfl, rfl⟩

/-- C1 (amended): in the fixed order changes → additions → removals, the
k-th non-ignored changed entry is classified with sequence number k —
whether or not it is suppressed, so a suppressed change result consumes a
number and leaves a gap — while additions and removals continue the
numbering from (number of non-ignored changed entries) + 1, with only
recognized entries consuming numbers; the numbering is therefore 1..N
consecutive exactly when no non-ignored changed entry is suppressed. -/
theorem C1_amended_numbering :
    (∀ (idx : Index) (b t : Doc) (cs : List (String × ChangeRec)) (c : Nat),
      changedLoop idx b t c cs =
        ((List.enumFrom c (cs.filter (fun e => !is_ignored_path e.1))).map
            (fun pe => describe_change idx b t pe.1 pe.2.1 pe.2.2),
          c + (cs.filter (fun e => !is_ignored_path e.1)).length)) ∧
    (∀ (idx : Index) (b_ : Bool) (es : List (String × JVal)) (c : Nat),
      arLoop idx b_ c es =
        ((List.enumFrom c (es.filter (fun e => arRecognized e.1 e.2))).filterMap
            (fun pe => describe_add_remove idx pe.1 pe.2.1 pe.2.2 b_),
          c + (es.filter (fun e => arRecognized e.1 e.2)).length)) ∧
    (∀ (idx : Index) (b t : Doc) (d : DiffRes),
      compareLines idx b t d =
        (changedLoop idx b t 1 d.values_changed).1 ++
        (arLoop idx true
          ((d.values_changed.filter (fun e => !is_ignored_path e.1)).length)
          d.iterable_item_added).1.map some ++
        (arLoop idx false
          ((d.values_changed.filter (fun e => !is_ignored_path e.1)).length +
            (d.iterable_item_added.filter (fun e => arRecognized e.1 e.2)).length)
          d.iterable_item_removed).1.map some) := by
  refine ⟨fun idx b t cs c => changedLoop_eq idx b t cs c,
    fun idx b_ es c => arLoop_eq idx b_ es c, ?_⟩
  intro idx b t d
  simp only [compareLines, changedLoop_eq, arLoop_eq, Nat.add_sub_cancel_left]

/-- C3 counterexample: when every changed-value entry is suppressed by
the vehicle-rename rule (and nothing else survives), the rendered report
is the EMPTY STRING, not the sentinel: the suppressed entry's `None` was
appended to `lines`, so the list is non-empty and the join of zero
survivors is `""`. -/
theorem C3_counterexample :
    compareOne (fun _ _ =>
        ⟨[("root['facilities'][0]['vehicles'][0]['attrs']['name']", ⟨"x", "y"⟩)],
          [], []⟩)
      ⟨[⟨none, some ⟨none, some (JVal.str "Depot"), none, none⟩, []⟩], []⟩
      ⟨[⟨none, some ⟨none, some (JVal.str "Depot"), none, none⟩, []⟩], []⟩ =
      some "" ∧
    ("" : String) ≠ sentinelStr := by
  refine ⟨rfl, by decide⟩

/-- C3 (amended): the sentinel is emitted exactly when every changed
entry is filtered out as ignored AND no addition/removal is recognized;
when lines exist the report is the blank-line join of the survivors; and
when some changed entry passes the filter but every one of them is
suppressed (and no add/remove line is produced), the report is the empty
string rather than the sentinel. -/
theorem C3_amended_sentinel :
    (∀ (idx : Index) (b t : Doc) (d : DiffRes),
      d.values_changed.filter (fun e => !is_ignored_path e.1) = [] →
      d.iterable_item_added.filter (fun e => arRecognized e.1 e.2) = [] →
      d.iterable_item_removed.filter (fun e => arRecognized e.1 e.2) = [] →
      compareReport idx b t d = sentinelStr) ∧
    (∀ (idx : Index) (b t : Doc) (d : DiffRes),
      compareLines idx b t d ≠ [] →
      compareReport idx b t d = String.intercalate "\n\n" (survivors idx b t d)) ∧
    (∀ (idx : Index) (b t : Doc) (d : DiffRes),
      d.values_changed.filter (fun e => !is_ignored_path e.1) ≠ [] →
      (∀ e ∈ d.values_changed.filter (fun e => !is_ignored_path e.1),
        ((searchIdxS "vehicles" e.1).isSome && endsWithS e.1 "['attrs']['name']") = true) →
      d.iterable_item_added.filter (fun e => arRecognized e.1 e.2) = [] →
      d.iterable_item_removed.filter (fun e => arRecognized e.1 e.2) = [] →
      compareReport idx b t d = "") := by
  refine ⟨?_, ?_, ?_⟩
  · intro idx b t d hF hA hR
    have hlines : compareLines idx b t d = [] := by
      simp [compareLines, changedLoop_eq, arLoop_eq, hF, hA, hR]
    simp [compareReport, hlines]
  · intro idx b t d h
    rw [compareReport, if_neg]
    simp [List.isEmpty_iff, h]
  · intro idx b t d hF hall hA hR
    have hlines : compareLines idx b t d =
        (List.enumFrom 1 (d.values_changed.filter (fun e => !is_ignored_path e.1))).map
          (fun pe => describe_change idx b t pe.1 pe.2.1 pe.2.2) := by
      simp [compareLines, changedLoop_eq, arLoop_eq, hA, hR]
    have hnil : ∀ pe ∈ List.enumFrom 1
        (d.values_changed.filter (fun e => !is_ignored_path e.1)),
        describe_change idx b t pe.1 pe.2.1 pe.2.2 = none := by
      rintro ⟨i, x⟩ hmem
      obtain ⟨_, _, h3⟩ := List.mem_enumFrom hmem
      rw [describe_change_eq_none_iff]
      exact hall x (by rw [h3]; exact List.getElem_mem _)
    have hne : compareLines idx b t d ≠ [] := by
      rw [hlines]
      intro hcon
      apply hF
      have hlen := congrArg List.length hcon
      simpa [List.enumFrom_length, List.length_eq_zero] using hlen
    have hsurv : survivors idx b t d = [] := by
      rw [survivors, hlines, List.filterMap_map]
      have hfm : List.filterMap
          (id ∘ fun pe => describe_change idx b t pe.1 pe.2.1 pe.2.2)
          (List.enumFrom 1 (d.values_changed.filter (fun e => !is_ignored_path e.1))) = [] :=
        List.filterMap_eq_nil_iff.mpr (by intro a ha; simpa using hnil a ha)
      rw [hfm]
      rfl
    rw [compareReport, if_neg, hsurv]
    · rfl
    · simp [List.isEmpty_iff, hne]

/-- Witness for the amended C3: an ignored-only diff yields the sentinel;
a real change yields the joined survivors; an all-suppressed diff yields
the empty report. -/
theorem C3_amended_sentinel_witness :
    compareReport ⟨[], [], [], [], []⟩ ⟨[], []⟩ ⟨[], []⟩
      ⟨[("root['attrs']['id']", ⟨"1", "2"⟩)], [], []⟩ = sentinelStr ∧
    compareReport ⟨[], [], [], [], []⟩ ⟨[], []⟩ ⟨[], []⟩
      ⟨[("root['attrs']['name']", ⟨"a", "b"⟩)], [], []⟩ =
      String.intercalate "\n\n" (survivors ⟨[], [], [], [], []⟩ ⟨[], []⟩ ⟨[], []⟩
        ⟨[("root['attrs']['name']", ⟨"a", "b"⟩)], [], []⟩) ∧
    compareReport ⟨[], [], [], [], []⟩ ⟨[], []⟩ ⟨[], []⟩
      ⟨[("root['facilities'][0]['vehicles'][0]['attrs']['name']", ⟨"x", "y"⟩)],
        [], []⟩ = "" :=
  ⟨C3_amended_sentinel.1 ⟨[], [], [], [], []⟩ ⟨[], []⟩ ⟨[], []⟩
      ⟨[("root['attrs']['id']", ⟨"1", "2"⟩)], [], []⟩ (by decide) rfl rfl,
    C3_amended_sentinel.2.1 ⟨[], [], [], [], []⟩ ⟨[], []⟩ ⟨[], []⟩
      ⟨[("root['attrs']['name']", ⟨"a", "b"⟩)], [], []⟩ (by decide),
    C3_amended_sentinel.2.2 ⟨[], [], [], [], []⟩ ⟨[], []⟩ ⟨[], []⟩
      ⟨[("root['facilities'][0]['vehicles'][0]['attrs']['name']", ⟨"x", "y"⟩)],
        [], []⟩ (by decide) (by decide) rfl rfl⟩
